import Mathlib

/-!
Verification of the tenant-isolation and authentication layer of
`frappe_microservice/core.py` (erpnext-microservices-lib).

The Python module is shallowly embedded: Python dicts become association
lists over `String` keys, Frappe documents become attribute maps, the
Frappe ORM becomes an explicit `Database` value threaded through the
operations, the session-validation HTTP call becomes an oracle value
describing the Central Site's answer, and Python exceptions become
`Except` results.  One function (`_add_tenant_filter`) is additionally
embedded at the level of an explicit heap of filter objects, because one
claim is about aliasing/mutation of the caller's argument.
-/

set_option autoImplicit false

namespace FrappeMS

/-- Python truthiness of an optional string: `None` and `""` are falsy.
Used wherever the source tests `if not x:` on a string-or-None value. -/
def falsyStr : Option String → Bool
  | Option.none => true
  | Option.some s => s == ""

/-- Lookup in a Python dict modelled as an association list
(first binding of the key wins; dicts built by `dictSet` have unique keys). -/
def alistGet {α : Type} : List (String × α) → String → Option α
  | [], _ => Option.none
  | (a, b) :: t, k => if a == k then Option.some b else alistGet t k

/-- Python dict assignment `d[k] = v`: replace the value at the key's
position if the key is present, otherwise append the new binding. -/
def dictSet {α : Type} : List (String × α) → String → α → List (String × α)
  | [], k, v => [(k, v)]
  | (a, b) :: t, k, v => if a == k then (k, v) :: t else (a, b) :: dictSet t k v

@[simp] theorem alistGet_nil {α : Type} (k : String) :
    alistGet ([] : List (String × α)) k = Option.none := rfl

@[simp] theorem alistGet_cons {α : Type} (a : String) (b : α) (t : List (String × α)) (k : String) :
    alistGet ((a, b) :: t) k = if a == k then Option.some b else alistGet t k := rfl

@[simp] theorem alistGet_dictSet_self {α : Type} (l : List (String × α)) (k : String) (v : α) :
    alistGet (dictSet l k v) k = Option.some v := by
  induction l with
  | nil => simp [dictSet]
  | cons p t ih =>
    obtain ⟨a, b⟩ := p
    by_cases h : a = k
    · simp [dictSet, h]
    · simp [dictSet, h, ih]

theorem alistGet_dictSet_ne {α : Type} (l : List (String × α)) (k k' : String) (v : α)
    (h : k' ≠ k) : alistGet (dictSet l k v) k' = alistGet l k' := by
  induction l with
  | nil => simp [dictSet, h, Ne.symm h, fun hkk : k = k' => h hkk.symm]
  | cons p t ih =>
    obtain ⟨a, b⟩ := p
    by_cases ha : a = k
    · subst ha
      have hne : ¬(a = k') := fun hkk => h hkk.symm
      simp [dictSet, hne]
    · simp [dictSet, ha, ih]

/-- Python dict update `base.update(upd)`: assign each binding of `upd`
into `base`, left to right. -/
def dictUpdate {α : Type} (base upd : List (String × α)) : List (String × α) :=
  upd.foldl (fun acc p => dictSet acc p.1 p.2) base

/-- A Frappe `filters` argument as accepted by `_add_tenant_filter`:
`None`, a dict of field/value pairs, a list of `[field, op, value]`
triples, or a value of any other type (which the source passes through). -/
inductive Filters where
  | null : Filters
  | dict (kvs : List (String × String)) : Filters
  | list (entries : List (String × String × String)) : Filters
  | other : Filters
deriving DecidableEq

/-- The exception kinds raised by the embedded code: `ValueError`,
`frappe.PermissionError`, `frappe.DoesNotExistError`, and exceptions
propagated out of user-registered hook handlers. -/
inductive Err where
  | valueError (msg : String) : Err
  | permissionError (msg : String) : Err
  | doesNotExistError (msg : String) : Err
  | hookError (msg : String) : Err
deriving DecidableEq

instance exceptDecEq {ε α : Type} [DecidableEq ε] [DecidableEq α] : DecidableEq (Except ε α)
  | Except.ok a, Except.ok b =>
    if h : a = b then Decidable.isTrue (congrArg Except.ok h)
    else Decidable.isFalse (fun hc => h (Except.ok.inj hc))
  | Except.ok _, Except.error _ => Decidable.isFalse (fun hc => Except.noConfusion hc)
  | Except.error _, Except.ok _ => Decidable.isFalse (fun hc => Except.noConfusion hc)
  | Except.error e, Except.error e' =>
    if h : e = e' then Decidable.isTrue (congrArg Except.error h)
    else Decidable.isFalse (fun hc => h (Except.error.inj hc))

/-- `TenantAwareDB._add_tenant_filter` (core.py lines 242-265), value level:
fetch the current tenant id, raise `ValueError` when it is falsy, and
otherwise add the tenant filter to (a copy of) the filters. -/
def add_tenant_filter (get_tenant_id : Option String) (filters : Filters) : Except Err Filters :=
  if falsyStr get_tenant_id then
    Except.error (Err.valueError
      "No tenant_id found in context. Cannot query without tenant isolation.")
  else
    let tenant_id := get_tenant_id.getD ""
    match filters with
    | Filters.null => Except.ok (Filters.dict [("tenant_id", tenant_id)])
    | Filters.dict kvs => Except.ok (Filters.dict (dictSet kvs "tenant_id" tenant_id))
    | Filters.list es => Except.ok (Filters.list (es ++ [("tenant_id", "=", tenant_id)]))
    | Filters.other => Except.ok Filters.other

/-- The call a `TenantAwareDB` query method hands to the underlying
Frappe ORM: which ORM entry point, the doctype, the (augmented) filters,
and the fieldname when the entry point takes one. -/
structure OrmCall where
  op : String
  doctype : String
  filters : Filters
  fieldname : Option String
deriving DecidableEq

/-- `TenantAwareDB.get_all` (core.py 267-287): augment the filters and
pass them to `frappe.get_all`.  The result is the ORM call issued; an
`Except.error` result means the ORM was never reached. -/
def get_all (get_tenant_id : Option String) (doctype : String) (filters : Filters) :
    Except Err OrmCall :=
  (add_tenant_filter get_tenant_id filters).map
    (fun fs => OrmCall.mk "frappe.get_all" doctype fs Option.none)

/-- `TenantAwareDB.get_list` (core.py 289-291): alias for `get_all`. -/
def get_list (get_tenant_id : Option String) (doctype : String) (filters : Filters) :
    Except Err OrmCall :=
  get_all get_tenant_id doctype filters

/-- `TenantAwareDB.count` (core.py 347-350). -/
def count (get_tenant_id : Option String) (doctype : String) (filters : Filters) :
    Except Err OrmCall :=
  (add_tenant_filter get_tenant_id filters).map
    (fun fs => OrmCall.mk "frappe.db.count" doctype fs Option.none)

/-- `TenantAwareDB.exists` (core.py 352-355). -/
def existsQ (get_tenant_id : Option String) (doctype : String) (filters : Filters) :
    Except Err OrmCall :=
  (add_tenant_filter get_tenant_id filters).map
    (fun fs => OrmCall.mk "frappe.db.exists" doctype fs Option.none)

/-- `TenantAwareDB.get_value` (core.py 357-360). -/
def get_value (get_tenant_id : Option String) (doctype : String) (filters : Filters)
    (fieldname : String) : Except Err OrmCall :=
  (add_tenant_filter get_tenant_id filters).map
    (fun fs => OrmCall.mk "frappe.db.get_value" doctype fs (Option.some fieldname))

/-- `TenantAwareDB.sql` (core.py 362-393): validate that a tenant id is
available, then execute the raw query unchanged.  The `ok` value is the
query string handed to `frappe.db.sql`. -/
def sql (get_tenant_id : Option String) (query : String) : Except Err String :=
  if falsyStr get_tenant_id then
    Except.error (Err.valueError
      "No tenant_id found in context. Cannot execute SQL query without tenant isolation.")
  else
    Except.ok query

/-- A Frappe document, modelled as its attribute map.  The conventional
keys `"doctype"`, `"name"` and `"tenant_id"` are ordinary attributes, as
they are on a Python object; an absent key models an absent attribute. -/
structure Doc where
  attrs : List (String × String)
deriving DecidableEq

/-- Python `getattr(doc, k, None)` / reading a document field. -/
def Doc.getattr (d : Doc) (k : String) : Option String := alistGet d.attrs k

/-- Python `hasattr(doc, k)`. -/
def Doc.hasattrB (d : Doc) (k : String) : Bool := (alistGet d.attrs k).isSome

/-- Python `setattr(doc, k, v)`. -/
def Doc.setattr (d : Doc) (k v : String) : Doc := Doc.mk (dictSet d.attrs k v)

/-- The Frappe document store: the live documents together with a counter
from which `insert` derives fresh document names (Frappe's automatic
naming is out of scope; only freshness of assignment is modelled). -/
structure Database where
  docs : List Doc
  nextId : Nat
deriving DecidableEq

/-- Whether a stored document is the one addressed by `(doctype, name)`. -/
def docMatches (dt nm : String) (d : Doc) : Bool :=
  d.getattr "doctype" == Option.some dt && d.getattr "name" == Option.some nm

/-- Row lookup underlying `frappe.get_doc` / `frappe.db.get_value`. -/
def findDoc (db : Database) (dt nm : String) : Option Doc :=
  db.docs.find? (docMatches dt nm)

/-- `frappe.get_doc(doctype, name)`: return the document or raise
`frappe.DoesNotExistError`. -/
def frappe_get_doc (db : Database) (dt nm : String) : Except Err Doc :=
  match findDoc db dt nm with
  | Option.none => Except.error (Err.doesNotExistError nm)
  | Option.some d => Except.ok d

/-- `frappe.get_doc(doc_dict)`: build an in-memory document from a dict. -/
def frappe_make_doc (doc_dict : List (String × String)) : Doc := Doc.mk doc_dict

/-- `doc.insert()`: store the document under a fresh name.  (Frappe also
runs its own validate/before_insert hooks here; those belong to the
framework, which is out of scope.) -/
def frappe_insert (db : Database) (d : Doc) : Database × Doc :=
  let nm := "DOC-".append (toString db.nextId)
  let d' := d.setattr "name" nm
  (Database.mk (db.docs ++ [d']) (db.nextId + 1), d')

/-- `frappe.db.get_value(doctype, name, fieldname)`: `None` when the
document is missing or the field is unset. -/
def frappe_db_get_value (db : Database) (dt nm field : String) : Option String :=
  (findDoc db dt nm).bind (fun d => d.getattr field)

/-- Replace the first list element satisfying `p` by its image under `f`. -/
def updateFirst {α : Type} (p : α → Bool) (f : α → α) : List α → List α
  | [] => []
  | a :: t => if p a then f a :: t else a :: updateFirst p f t

/-- `frappe.db.set_value(doctype, name, field, v)`. -/
def frappe_db_set_value (db : Database) (dt nm field v : String) : Database :=
  Database.mk (updateFirst (docMatches dt nm) (fun d => d.setattr field v) db.docs) db.nextId

/-- `doc.save()`: write the (modified) document back over its stored row. -/
def frappe_save (db : Database) (d : Doc) : Database :=
  match d.getattr "doctype", d.getattr "name" with
  | Option.some dt, Option.some nm =>
      Database.mk (updateFirst (docMatches dt nm) (fun _ => d) db.docs) db.nextId
  | _, _ => db

/-- `frappe.delete_doc(doctype, name)`: drop the addressed document. -/
def frappe_delete_doc (db : Database) (dt nm : String) : Except Err Database :=
  match findDoc db dt nm with
  | Option.none => Except.error (Err.doesNotExistError nm)
  | Option.some _ =>
      Except.ok (Database.mk (db.docs.filter (fun d => !(docMatches dt nm d))) db.nextId)

/-- A registered hook handler: its `__name__` and its behaviour on the
document it receives (a handler may transform the document or raise). -/
structure Handler where
  hname : String
  run : Doc → Except String Doc

/-- `DocumentHooks._hooks` (core.py 116): dict doctype -> dict event -> list. -/
abbrev HookState : Type := List (String × List (String × List Handler))

/-- The empty `DocumentHooks` registry. -/
def emptyHooks : HookState := []

/-- `DocumentHooks.register` (core.py 128-149): create the missing nested
entries, then append the handler to the doctype/event list. -/
def register (st : HookState) (doctype event : String) (h : Handler) : HookState :=
  let inner := (alistGet st doctype).getD []
  let lst := (alistGet inner event).getD []
  dictSet st doctype (dictSet inner event (lst ++ [h]))

/-- The handlers stored under one doctype key and one event key. -/
def hooksFor (st : HookState) (doctype event : String) : List Handler :=
  ((alistGet st doctype).bind (fun inner => alistGet inner event)).getD []

/-- `DocumentHooks.get_hooks` (core.py 151-163): global `*` hooks first,
then the doctype-specific hooks. -/
def get_hooks (st : HookState) (doctype event : String) : List Handler :=
  hooksFor st "*" event ++ hooksFor st doctype event

/-- The loop body of `DocumentHooks.run_hooks` (core.py 179-186) over an
explicit handler list.  Returns the names of the handlers invoked, in
invocation order, and the outcome: on a handler error with
`raise_on_error` the exception propagates at once; without it the error
is logged and the run continues on the unmodified document. -/
def runHandlers : List Handler → Doc → Bool → List String × Except String Doc
  | [], doc, _ => ([], Except.ok doc)
  | h :: rest, doc, roe =>
    match h.run doc with
    | Except.ok doc' =>
        let r := runHandlers rest doc' roe
        (h.hname :: r.1, r.2)
    | Except.error e =>
        if roe then ([h.hname], Except.error e)
        else
          let r := runHandlers rest doc roe
          (h.hname :: r.1, r.2)

/-- `DocumentHooks.run_hooks` (core.py 165-186): run the hooks of
`doc.doctype` for the event. -/
def run_hooks (st : HookState) (doc : Doc) (event : String) (raise_on_error : Bool) :
    List String × Except String Doc :=
  runHandlers (get_hooks st ((doc.getattr "doctype").getD "") event) doc raise_on_error

/-- `run_hooks` as used by the `TenantAwareDB` document operations
(always `raise_on_error=True`; handler exceptions surface as `Err`). -/
def runHooksE (st : HookState) (doc : Doc) (event : String) : Except Err Doc :=
  match (run_hooks st doc event true).2 with
  | Except.ok d => Except.ok d
  | Except.error m => Except.error (Err.hookError m)

/-- `TenantAwareDB.get_doc` (core.py 293-330): fetch the document; when
`verify_tenant` is set and the document has a `tenant_id` attribute that
differs from the current tenant id, raise `frappe.PermissionError`. -/
def get_doc (get_tenant_id : Option String) (db : Database) (doctype nm : String)
    (verify_tenant : Bool) : Except Err Doc :=
  match frappe_get_doc db doctype nm with
  | Except.error e => Except.error e
  | Except.ok doc =>
    if verify_tenant && doc.hasattrB "tenant_id" then
      if doc.getattr "tenant_id" ≠ get_tenant_id then
        Except.error (Err.permissionError "Access denied: Document belongs to different tenant")
      else Except.ok doc
    else Except.ok doc

/-- `TenantAwareDB.new_doc` (core.py 407-436): require a tenant id, build
`{"doctype": doctype, "tenant_id": tenant_id, **kwargs}` (so a kwarg
overrides the injected tenant id, exactly as in the dict literal), and
run the `before_validate` hooks on the document.  No database write. -/
def new_doc (get_tenant_id : Option String) (st : HookState) (doctype : String)
    (kwargs : List (String × String)) : Except Err Doc :=
  if falsyStr get_tenant_id then
    Except.error (Err.valueError
      "No tenant_id in context. Cannot create document without tenant isolation.")
  else
    let tenant_id := get_tenant_id.getD ""
    let doc := frappe_make_doc
      (dictUpdate [("doctype", doctype), ("tenant_id", tenant_id)] kwargs)
    runHooksE st doc "before_validate"

/-- The `insert()` parameter names `insert_doc` strips out of `kwargs`
(core.py 504-505). -/
def insert_param_names : List String :=
  ["ignore_permissions", "ignore_links", "ignore_if_duplicate",
   "ignore_mandatory", "set_name", "set_child_names"]

/-- `insert_doc`'s document fields (core.py 499-512): `data` updated
with the kwargs that are not `insert()` parameters. -/
def docFieldsOf (data kwargs : List (String × String)) : List (String × String) :=
  dictUpdate data (kwargs.filter (fun p => !(insert_param_names.contains p.1)))

/-- The post-insert safety check of `insert_doc` (core.py 571-597):
re-read the stored `tenant_id`; when it differs from the expected one,
force it with `frappe.db.set_value` and reload the document. -/
def tenantSafetyCheck (tenant_id : String) (db1 : Database) (doctype : String) (doc4 : Doc) :
    Database × Doc :=
  let nm := (doc4.getattr "name").getD ""
  let saved := frappe_db_get_value db1 doctype nm "tenant_id"
  if saved ≠ Option.some tenant_id then
    let db2 := frappe_db_set_value db1 doctype nm "tenant_id" tenant_id
    (db2, (findDoc db2 doctype nm).getD doc4)
  else (db1, doc4)

/-- `update_doc`'s field-application loop (core.py 643-645): assign each
data field onto the document, but only when the document already has the
attribute. -/
def applyFields (doc : Doc) (data : List (String × String)) : Doc :=
  data.foldl (fun d p => if d.hasattrB p.1 then d.setattr p.1 p.2 else d) doc

/-- `TenantAwareDB.insert_doc` (core.py 438-604): require a tenant id,
merge `data` with the non-insert-parameter kwargs, refuse a supplied
`tenant_id` different from the current one, build the document with the
tenant id injected and then set directly on the object, run the
`before_validate`/`before_insert` hooks, insert, re-read the stored
`tenant_id` and force it via `db.set_value` plus `doc.reload()` when the
insert did not persist it, and finally run the `after_insert` hooks.
The returned `Database` is the store after the call, including when an
exception propagates part-way through. -/
def insert_doc (get_tenant_id : Option String) (st : HookState) (db : Database)
    (doctype : String) (data kwargs : List (String × String)) (run_hooks_flag : Bool) :
    Database × Except Err Doc :=
  if falsyStr get_tenant_id then
    (db, Except.error (Err.valueError
      "No tenant_id in context. Cannot create document without tenant isolation."))
  else
    let tenant_id := get_tenant_id.getD ""
    let doc_fields := docFieldsOf data kwargs
    let supplied := alistGet doc_fields "tenant_id"
    if supplied.isSome && supplied != Option.some tenant_id then
      (db, Except.error (Err.permissionError "Cannot create document for different tenant"))
    else
      let doc0 := frappe_make_doc
        (dictUpdate [("doctype", doctype), ("tenant_id", tenant_id)] doc_fields)
      let doc1 := doc0.setattr "tenant_id" tenant_id
      match (if run_hooks_flag then runHooksE st doc1 "before_validate" else Except.ok doc1) with
      | Except.error e => (db, Except.error e)
      | Except.ok doc2 =>
        match (if run_hooks_flag then runHooksE st doc2 "before_insert" else Except.ok doc2) with
        | Except.error e => (db, Except.error e)
        | Except.ok doc3 =>
          let ins := frappe_insert db doc3
          let post := tenantSafetyCheck tenant_id ins.1 doctype ins.2
          match (if run_hooks_flag then runHooksE st post.2 "after_insert" else Except.ok post.2) with
          | Except.error e => (post.1, Except.error e)
          | Except.ok doc5 => (post.1, Except.ok doc5)

/-- `TenantAwareDB.update_doc` (core.py 606-654): fetch and
tenant-verify the document, drop any `tenant_id` key from (a copy of)
the data, run the `before_update` hooks, assign each remaining data
field onto the document but only when the document already has that
attribute, save, and run the `after_update` hooks. -/
def update_doc (get_tenant_id : Option String) (st : HookState) (db : Database)
    (doctype nm : String) (data : List (String × String)) (run_hooks_flag : Bool) :
    Database × Except Err Doc :=
  match get_doc get_tenant_id db doctype nm true with
  | Except.error e => (db, Except.error e)
  | Except.ok doc =>
    let data' := data.filter (fun p => !(p.1 == "tenant_id"))
    match (if run_hooks_flag then runHooksE st doc "before_update" else Except.ok doc) with
    | Except.error e => (db, Except.error e)
    | Except.ok doc1 =>
      let doc2 := applyFields doc1 data'
      let db1 := frappe_save db doc2
      match (if run_hooks_flag then runHooksE st doc2 "after_update" else Except.ok doc2) with
      | Except.error e => (db1, Except.error e)
      | Except.ok doc3 => (db1, Except.ok doc3)

/-- `TenantAwareDB.delete_doc` (core.py 656-690): when verifying or
running hooks, fetch the document through `get_doc` (which performs the
tenant check when `verify_tenant` is set) and run the `before_delete`
hooks; then delete; then run the `after_delete` hooks. -/
def delete_doc (get_tenant_id : Option String) (st : HookState) (db : Database)
    (doctype nm : String) (verify_tenant run_hooks_flag : Bool) :
    Database × Except Err Unit :=
  if verify_tenant || run_hooks_flag then
    match get_doc get_tenant_id db doctype nm verify_tenant with
    | Except.error e => (db, Except.error e)
    | Except.ok doc =>
      match (if run_hooks_flag then runHooksE st doc "before_delete" else Except.ok doc) with
      | Except.error e => (db, Except.error e)
      | Except.ok doc1 =>
        match frappe_delete_doc db doctype nm with
        | Except.error e => (db, Except.error e)
        | Except.ok db1 =>
          match (if run_hooks_flag then runHooksE st doc1 "after_delete" else Except.ok doc1) with
          | Except.error e => (db1, Except.error e)
          | Except.ok _ => (db1, Except.ok ())
  else
    match frappe_delete_doc db doctype nm with
    | Except.error e => (db, Except.error e)
    | Except.ok db1 => (db1, Except.ok ())

/-- A mutable Python filters object (a dict or a list) for the
heap-level embedding of `_add_tenant_filter`. -/
inductive FilterObj where
  | dictObj (kvs : List (String × String)) : FilterObj
  | listObj (entries : List (String × String × String)) : FilterObj
deriving DecidableEq

/-- A heap of filter objects; addresses are list indices. -/
abbrev Heap : Type := List FilterObj

/-- Dereference an address. -/
def heapGet (h : Heap) (a : Nat) : Option FilterObj := List.get? h a

/-- Overwrite the object at an address (in-place mutation). -/
def heapSet (h : Heap) (a : Nat) (o : FilterObj) : Heap := List.set h a o

/-- Allocate a fresh object, returning its address. -/
def heapAlloc (h : Heap) (o : FilterObj) : Heap × Nat := (h ++ [o], h.length)

/-- `TenantAwareDB._add_tenant_filter` (core.py 242-265), heap level: the
argument is `None` or a reference into the heap.  Statement by statement:
`filters = filters.copy()` allocates a shallow copy and rebinds the
local; `filters['tenant_id'] = tenant_id` / `filters.append([...])`
mutate the object now bound; the address of that object is returned.  A
dangling reference is rejected (unreachable on well-formed heaps). -/
def add_tenant_filter_heap (get_tenant_id : Option String) (h : Heap) (arg : Option Nat) :
    Except Err (Heap × Nat) :=
  if falsyStr get_tenant_id then
    Except.error (Err.valueError
      "No tenant_id found in context. Cannot query without tenant isolation.")
  else
    let tenant_id := get_tenant_id.getD ""
    match arg with
    | Option.none => Except.ok (heapAlloc h (FilterObj.dictObj [("tenant_id", tenant_id)]))
    | Option.some a =>
      match heapGet h a with
      | Option.none => Except.error (Err.valueError "dangling reference")
      | Option.some (FilterObj.dictObj kvs) =>
          let alloc := heapAlloc h (FilterObj.dictObj kvs)
          Except.ok
            (heapSet alloc.1 alloc.2 (FilterObj.dictObj (dictSet kvs "tenant_id" tenant_id)),
             alloc.2)
      | Option.some (FilterObj.listObj es) =>
          let alloc := heapAlloc h (FilterObj.listObj es)
          Except.ok
            (heapSet alloc.1 alloc.2 (FilterObj.listObj (es ++ [("tenant_id", "=", tenant_id)])),
             alloc.2)

/-- The JSON body of an error response produced by `MicroserviceApp`. -/
structure JsonBody where
  status : String
  message : String
  etype : String
  code : Nat
deriving DecidableEq

/-- What the Central Site's `frappe.auth.get_logged_user` call yields:
an HTTP response with a status code and the parsed `message` field
(absent when the body has none), or a transport/parse exception. -/
inductive CentralResult where
  | response (statusCode : Nat) (message : Option String) : CentralResult
  | requestError (msg : String) : CentralResult
deriving DecidableEq

/-- The 401 body built at core.py 1086-1091 and 1146-1151. -/
def authRequiredBody (central_site_url : String) : JsonBody :=
  JsonBody.mk "error"
    ("Authentication required. Please login at Central Site: "
      ++ central_site_url ++ "/api/method/login")
    "Unauthorized" 401

/-- `MicroserviceApp._validate_session` (core.py 1062-1168): extract the
`sid` cookie; reject a falsy or `'Guest'` sid; otherwise consult the
Central Site and accept only an HTTP 200 whose `message` is a non-empty
user other than `'Guest'`.  Result: `(username, error_response)`. -/
def validate_session (central_site_url : String) (cookies : List (String × String))
    (central : CentralResult) : Option String × Option (JsonBody × Nat) :=
  let sid := alistGet cookies "sid"
  if falsyStr sid || sid == Option.some "Guest" then
    (Option.none, Option.some (authRequiredBody central_site_url, 401))
  else
    match central with
    | CentralResult.response statusCode message =>
      if statusCode == 200 then
        match message with
        | Option.some username =>
          if username != "" && username != "Guest" then (Option.some username, Option.none)
          else (Option.none, Option.some (authRequiredBody central_site_url, 401))
        | Option.none => (Option.none, Option.some (authRequiredBody central_site_url, 401))
      else (Option.none, Option.some (authRequiredBody central_site_url, 401))
    | CentralResult.requestError _ =>
        (Option.none, Option.some (authRequiredBody central_site_url, 401))

/-- What a wrapped endpoint function does when finally invoked: return a
payload, or raise one of the exception classes the `secure_route`
wrapper catches. -/
inductive HandlerOutcome where
  | success (payload : String) : HandlerOutcome
  | permissionError (msg : String) : HandlerOutcome
  | doesNotExistError (msg : String) : HandlerOutcome
  | validationError (msg : String) : HandlerOutcome
  | otherError (msg : String) : HandlerOutcome

/-- A response leaving the `secure_route` wrapper. -/
inductive RespBody where
  | jsonError (b : JsonBody) : RespBody
  | payload (p : String) : RespBody
deriving DecidableEq

/-- The wrapper installed by `MicroserviceApp.secure_route`
(core.py 1170-1291): validate the session and return the 401 error
response untouched when validation fails; otherwise invoke the wrapped
function with the username and map its exceptions to 403/404/400/500
JSON errors.  The side effects on `g` (current user, auto-resolved
tenant id) and the debug logging do not affect the response and are
elided. -/
def secure_route_wrapper (central_site_url : String) (cookies : List (String × String))
    (central : CentralResult) (f : String → HandlerOutcome) : RespBody × Nat :=
  match validate_session central_site_url cookies central with
  | (_, Option.some err) => (RespBody.jsonError err.1, err.2)
  | (Option.some username, Option.none) =>
    match f username with
    | HandlerOutcome.success p => (RespBody.payload p, 200)
    | HandlerOutcome.permissionError m =>
        (RespBody.jsonError (JsonBody.mk "error" m "PermissionError" 403), 403)
    | HandlerOutcome.doesNotExistError m =>
        (RespBody.jsonError (JsonBody.mk "error" m "DoesNotExistError" 404), 404)
    | HandlerOutcome.validationError m =>
        (RespBody.jsonError
          (JsonBody.mk "error" ("Invalid input data: " ++ m) "ValidationError" 400), 400)
    | HandlerOutcome.otherError m =>
        (RespBody.jsonError
          (JsonBody.mk "error" "An internal server error occurred." m 500), 500)
  | (Option.none, Option.none) =>
    -- Unreachable: `validate_session` pairs a `None` username with an error.
    (RespBody.jsonError (JsonBody.mk "error" "" "" 500), 500)

/-- `get_user_tenant_id` (core.py 25-92).  Environment made explicit:
`session_user` is `frappe.session.user` when frappe has a session
attribute (`None` otherwise, in which case the source falls back to
`'Guest'`); `sql_result` is the outcome of the direct SQL lookup — an
exception, or the `tenant_id` of the first returned row (`None` when no
enabled row matched or the column is NULL, `""` modelling a falsy
non-NULL value); `fallback_result` is the outcome of the
`frappe.db.get_value` fallback.  All exceptions are caught.
`resolveEmail` is the fallback of core.py 34-37: a falsy `user_email`
is replaced by the session user, `'Guest'` when there is no session. -/
def resolveEmail (session_user user_email : Option String) : String :=
  if falsyStr user_email then session_user.getD "Guest" else user_email.getD ""

def get_user_tenant_id (session_user : Option String) (user_email : Option String)
    (sql_result : Except String (Option String))
    (fallback_result : Except String (Option String)) : Option String :=
  if resolveEmail session_user user_email == ""
      || resolveEmail session_user user_email == "Guest"
      || resolveEmail session_user user_email == "Administrator" then Option.none
  else
    match sql_result with
    | Except.ok (Option.some tid) =>
        if tid == "" then Option.none
        else if tid == "SYSTEM" then Option.none
        else Option.some tid
    | Except.ok Option.none => Option.none
    | Except.error _ =>
        match fallback_result with
        | Except.ok tid => if tid == Option.some "SYSTEM" then Option.none else tid
        | Except.error _ => Option.none

/-! ## Shared example data for witnesses -/

/-- One stored `Task` document belonging to tenant `T1`. -/
def sampleDoc : Doc :=
  Doc.mk [("doctype", "Task"), ("name", "T-1"), ("tenant_id", "T1"), ("status", "Open")]

/-- A store holding just `sampleDoc`. -/
def sampleDb : Database := Database.mk [sampleDoc] 5

/-! ## Claims -/

/-- C1: for every call to `get_all` (and its alias `get_list`), `count`,
`exists` or `get_value`, the filters handed to the underlying ORM are
exactly `_add_tenant_filter` of the argument, and `_add_tenant_filter`
with the current tenant id `t` turns `None` into `{tenant_id: t}`, gives
a dict the key `tenant_id` mapped to `t` while leaving every other key
unchanged, and appends the entry `[tenant_id, =, t]` to a list. -/
theorem tenant_filter_added_to_every_query (t : String) (ht : t ≠ "")
    (doctype fieldname : String) :
    (∀ fs, (get_all (Option.some t) doctype fs).map OrmCall.filters
        = add_tenant_filter (Option.some t) fs
      ∧ (get_list (Option.some t) doctype fs).map OrmCall.filters
        = add_tenant_filter (Option.some t) fs
      ∧ (count (Option.some t) doctype fs).map OrmCall.filters
        = add_tenant_filter (Option.some t) fs
      ∧ (existsQ (Option.some t) doctype fs).map OrmCall.filters
        = add_tenant_filter (Option.some t) fs
      ∧ (get_value (Option.some t) doctype fs fieldname).map OrmCall.filters
        = add_tenant_filter (Option.some t) fs)
    ∧ add_tenant_filter (Option.some t) Filters.null
        = Except.ok (Filters.dict [("tenant_id", t)])
    ∧ (∀ kvs, ∃ kvs',
        add_tenant_filter (Option.some t) (Filters.dict kvs) = Except.ok (Filters.dict kvs')
        ∧ alistGet kvs' "tenant_id" = Option.some t
        ∧ ∀ k, k ≠ "tenant_id" → alistGet kvs' k = alistGet kvs k)
    ∧ (∀ es, add_tenant_filter (Option.some t) (Filters.list es)
        = Except.ok (Filters.list (es ++ [("tenant_id", "=", t)]))) := by
  have hfal : falsyStr (Option.some t) = false := by
    simp [falsyStr, ht]
  refine ⟨?_, ?_, ?_, ?_⟩
  · intro fs
    refine ⟨?_, ?_, ?_, ?_, ?_⟩ <;>
      cases hres : add_tenant_filter (Option.some t) fs <;>
        simp [get_all, get_list, count, existsQ, get_value, hres, Except.map]
  · simp [add_tenant_filter, hfal]
  · intro kvs
    refine ⟨dictSet kvs "tenant_id" t, ?_, ?_, ?_⟩
    · simp [add_tenant_filter, hfal]
    · simp
    · intro k hk
      exact alistGet_dictSet_ne kvs "tenant_id" k t hk
  · intro es
    simp [add_tenant_filter, hfal]

theorem tenant_filter_added_to_every_query_witness :
    (get_all (Option.some "T1") "Task" Filters.null).map OrmCall.filters
      = add_tenant_filter (Option.some "T1") Filters.null :=
  ((tenant_filter_added_to_every_query "T1" (by decide) "Task" "status").1 Filters.null).1

/-- C5: when the configured tenant-id getter returns a falsy value,
`get_all`, `get_list`, `count`, `exists`, `get_value`, `sql`, `new_doc`
and `insert_doc` all raise `ValueError`; the `Except.error` results mean
the underlying ORM is never reached, and `insert_doc` leaves the store
untouched. -/
theorem falsy_tenant_raises_value_error (gt : Option String) (h : falsyStr gt = true) :
    (∀ doctype fs fieldname,
        (∃ m, get_all gt doctype fs = Except.error (Err.valueError m))
      ∧ (∃ m, get_list gt doctype fs = Except.error (Err.valueError m))
      ∧ (∃ m, count gt doctype fs = Except.error (Err.valueError m))
      ∧ (∃ m, existsQ gt doctype fs = Except.error (Err.valueError m))
      ∧ (∃ m, get_value gt doctype fs fieldname = Except.error (Err.valueError m)))
    ∧ (∀ q, ∃ m, sql gt q = Except.error (Err.valueError m))
    ∧ (∀ st doctype kwargs, ∃ m,
        new_doc gt st doctype kwargs = Except.error (Err.valueError m))
    ∧ (∀ st db doctype data kwargs rf, ∃ m,
        insert_doc gt st db doctype data kwargs rf = (db, Except.error (Err.valueError m))) := by
  refine ⟨?_, ?_, ?_, ?_⟩
  · intro doctype fs fieldname
    refine
      ⟨⟨"No tenant_id found in context. Cannot query without tenant isolation.", ?_⟩,
       ⟨"No tenant_id found in context. Cannot query without tenant isolation.", ?_⟩,
       ⟨"No tenant_id found in context. Cannot query without tenant isolation.", ?_⟩,
       ⟨"No tenant_id found in context. Cannot query without tenant isolation.", ?_⟩,
       ⟨"No tenant_id found in context. Cannot query without tenant isolation.", ?_⟩⟩ <;>
      simp [get_all, get_list, count, existsQ, get_value, add_tenant_filter, h, Except.map]
  · intro q
    exact
      ⟨"No tenant_id found in context. Cannot execute SQL query without tenant isolation.",
       by simp [sql, h]⟩
  · intro st doctype kwargs
    exact
      ⟨"No tenant_id in context. Cannot create document without tenant isolation.",
       by simp [new_doc, h]⟩
  · intro st db doctype data kwargs rf
    exact
      ⟨"No tenant_id in context. Cannot create document without tenant isolation.",
       by simp [insert_doc, h]⟩

theorem falsy_tenant_raises_value_error_witness :
    ∃ m, get_all Option.none "Task" Filters.null = Except.error (Err.valueError m) :=
  ((falsy_tenant_raises_value_error Option.none rfl).1 "Task" Filters.null "status").1

/-- Helper: the tenant-verification branch of `get_doc` rejects a stored
document whose `tenant_id` attribute differs from the current tenant. -/
theorem get_doc_cross_tenant (gt : Option String) (db : Database) (dt nm : String)
    (doc : Doc) (hfind : findDoc db dt nm = Option.some doc)
    (hattr : (doc.getattr "tenant_id").isSome = true)
    (hne : doc.getattr "tenant_id" ≠ gt) :
    get_doc gt db dt nm true =
      Except.error (Err.permissionError "Access denied: Document belongs to different tenant") := by
  simp [get_doc, frappe_get_doc, hfind, Doc.hasattrB, Doc.getattr] at *
  simp [hattr, hne]

/-- C3: `get_doc` with `verify_tenant=True`, on a stored document that
has a `tenant_id` attribute differing from the current tenant id, raises
`frappe.PermissionError` instead of returning the document. -/
theorem get_doc_denies_cross_tenant (gt : Option String) (db : Database) (dt nm : String)
    (doc : Doc) (hfind : findDoc db dt nm = Option.some doc)
    (hattr : (doc.getattr "tenant_id").isSome = true)
    (hne : doc.getattr "tenant_id" ≠ gt) :
    get_doc gt db dt nm true =
      Except.error (Err.permissionError "Access denied: Document belongs to different tenant") :=
  get_doc_cross_tenant gt db dt nm doc hfind hattr hne

theorem get_doc_denies_cross_tenant_witness :
    get_doc (Option.some "T2") sampleDb "Task" "T-1" true =
      Except.error (Err.permissionError "Access denied: Document belongs to different tenant") :=
  get_doc_denies_cross_tenant (Option.some "T2") sampleDb "Task" "T-1" sampleDoc
    (by decide) (by decide) (by decide)

theorem find?_filter_not {α : Type} (l : List α) (p : α → Bool) :
    (l.filter (fun a => !(p a))).find? p = Option.none := by
  rw [List.find?_eq_none]
  intro x hx
  have hnp := (List.mem_filter.mp hx).2
  simp only [Bool.not_eq_true'] at hnp
  simp [hnp]

/-- C7: `delete_doc` with `verify_tenant=True` verifies tenant ownership
before deleting: a cross-tenant target makes the call raise
`frappe.PermissionError` with the store unchanged, and whenever the call
returns successfully the addressed document is gone from the store. -/
theorem delete_doc_verifies_tenant (gt : Option String) (st : HookState) (db : Database)
    (dt nm : String) (rh : Bool) :
    (∀ doc, findDoc db dt nm = Option.some doc →
      (doc.getattr "tenant_id").isSome = true →
      doc.getattr "tenant_id" ≠ gt →
      delete_doc gt st db dt nm true rh =
        (db, Except.error
          (Err.permissionError "Access denied: Document belongs to different tenant")))
    ∧ ((delete_doc gt st db dt nm true rh).2 = Except.ok () →
        findDoc (delete_doc gt st db dt nm true rh).1 dt nm = Option.none) := by
  constructor
  · intro doc hfind hattr hne
    have hg := get_doc_cross_tenant gt db dt nm doc hfind hattr hne
    simp [delete_doc, hg]
  · intro hok
    unfold delete_doc at hok ⊢
    simp only [Bool.true_or, if_true] at hok ⊢
    cases hgd : get_doc gt db dt nm true with
    | error e => rw [hgd] at hok; simp at hok
    | ok doc =>
      rw [hgd] at hok
      dsimp only at hok ⊢
      cases hbh : (if rh then runHooksE st doc "before_delete" else Except.ok doc) with
      | error e => rw [hbh] at hok; simp at hok
      | ok doc1 =>
        rw [hbh] at hok
        dsimp only at hok ⊢
        cases hdel : frappe_delete_doc db dt nm with
        | error e => rw [hdel] at hok; simp at hok
        | ok db1 =>
          rw [hdel] at hok
          dsimp only at hok ⊢
          cases hah : (if rh then runHooksE st doc1 "after_delete" else Except.ok doc1) with
          | error e => rw [hah] at hok; simp at hok
          | ok d =>
            rw [hah] at hok
            dsimp only at hok ⊢
            unfold frappe_delete_doc at hdel
            cases hf : findDoc db dt nm with
            | none => rw [hf] at hdel; simp at hdel
            | some d0 =>
              rw [hf] at hdel
              simp only [Except.ok.injEq] at hdel
              rw [← hdel]
              unfold findDoc
              exact find?_filter_not db.docs (docMatches dt nm)

theorem delete_doc_verifies_tenant_witness :
    delete_doc (Option.some "T2") emptyHooks sampleDb "Task" "T-1" true true =
      (sampleDb, Except.error
        (Err.permissionError "Access denied: Document belongs to different tenant")) :=
  (delete_doc_verifies_tenant (Option.some "T2") emptyHooks sampleDb "Task" "T-1" true).1
    sampleDoc (by decide) (by decide) (by decide)

/-- The value the heap-level `_add_tenant_filter` leaves in the freshly
allocated result object (used only to state the next theorems). -/
def augObj (o : FilterObj) (t : String) : FilterObj :=
  match o with
  | FilterObj.dictObj kvs => FilterObj.dictObj (dictSet kvs "tenant_id" t)
  | FilterObj.listObj es => FilterObj.listObj (es ++ [("tenant_id", "=", t)])

theorem heap_lt_of_get (h : Heap) (a : Nat) (obj : FilterObj)
    (hobj : heapGet h a = Option.some obj) : a < h.length := by
  by_contra hge
  push_neg at hge
  rw [heapGet, List.get?_eq_none.mpr hge] at hobj
  exact Option.noConfusion hobj

theorem heap_call_spec (t : String) (ht : t ≠ "") (h : Heap) (a : Nat) (obj : FilterObj)
    (hobj : heapGet h a = Option.some obj) :
    add_tenant_filter_heap (Option.some t) h (Option.some a) =
      Except.ok ((h ++ [obj]).set h.length (augObj obj t), h.length) := by
  have hfal : falsyStr (Option.some t) = false := by simp [falsyStr, ht]
  cases obj with
  | dictObj kvs =>
      simp [add_tenant_filter_heap, hfal, heapGet] at *
      simp [hobj, heapAlloc, heapSet, augObj]
  | listObj es =>
      simp [add_tenant_filter_heap, hfal, heapGet] at *
      simp [hobj, heapAlloc, heapSet, augObj]

theorem heap_call_get_frame (t : String) (h : Heap) (a : Nat) (obj : FilterObj)
    (hobj : heapGet h a = Option.some obj) :
    heapGet ((h ++ [obj]).set h.length (augObj obj t)) a = Option.some obj := by
  have hlt := heap_lt_of_get h a obj hobj
  unfold heapGet at *
  rw [List.get?_set_ne _ _ (Nat.ne_of_lt hlt).symm]
  rw [List.get?_append hlt]
  exact hobj

/-- C8: `_add_tenant_filter` never mutates the caller's filters object:
the call copies the argument, mutates the copy, and returns the copy's
address, so the caller's object is unchanged, and a second call on the
same object yields the same singly-augmented result rather than
accumulating tenant entries. -/
theorem add_tenant_filter_not_mutating (t : String) (ht : t ≠ "")
    (h : Heap) (a : Nat) (obj : FilterObj) (hobj : heapGet h a = Option.some obj) :
    ∃ h1 b, add_tenant_filter_heap (Option.some t) h (Option.some a) = Except.ok (h1, b)
      ∧ heapGet h1 a = Option.some obj
      ∧ b ≠ a
      ∧ ∃ h2 b2, add_tenant_filter_heap (Option.some t) h1 (Option.some a) = Except.ok (h2, b2)
          ∧ heapGet h2 a = Option.some obj
          ∧ heapGet h2 b2 = heapGet h1 b := by
  have hlt := heap_lt_of_get h a obj hobj
  refine ⟨_, _, heap_call_spec t ht h a obj hobj, heap_call_get_frame t h a obj hobj,
    (Nat.ne_of_lt hlt).symm, ?_⟩
  have hobj1 := heap_call_get_frame t h a obj hobj
  refine ⟨_, _, heap_call_spec t ht _ a obj hobj1, heap_call_get_frame t _ a obj hobj1, ?_⟩
  have hlen1 : ((h ++ [obj]).set h.length (augObj obj t)).length = h.length + 1 := by
    simp
  have hget1 : heapGet ((h ++ [obj]).set h.length (augObj obj t)) h.length
      = Option.some (augObj obj t) := by
    unfold heapGet
    rw [List.get?_set_eq_of_lt]
    simp
  have hget2 : heapGet
      ((((h ++ [obj]).set h.length (augObj obj t)) ++ [obj]).set
        (((h ++ [obj]).set h.length (augObj obj t)).length) (augObj obj t))
      (((h ++ [obj]).set h.length (augObj obj t)).length)
      = Option.some (augObj obj t) := by
    unfold heapGet
    rw [List.get?_set_eq_of_lt]
    simp
  rw [hget1, hget2]

theorem add_tenant_filter_not_mutating_witness :
    ∃ h1 b, add_tenant_filter_heap (Option.some "T1")
        [FilterObj.dictObj [("status", "Active")]] (Option.some 0) = Except.ok (h1, b)
      ∧ heapGet h1 0 = Option.some (FilterObj.dictObj [("status", "Active")])
      ∧ b ≠ 0
      ∧ ∃ h2 b2, add_tenant_filter_heap (Option.some "T1") h1 (Option.some 0) = Except.ok (h2, b2)
          ∧ heapGet h2 0 = Option.some (FilterObj.dictObj [("status", "Active")])
          ∧ heapGet h2 b2 = heapGet h1 b :=
  add_tenant_filter_not_mutating "T1" (by decide)
    [FilterObj.dictObj [("status", "Active")]] 0
    (FilterObj.dictObj [("status", "Active")]) (by decide)

/-- C2: a request to a `secure_route` endpoint whose cookies carry no
(or an empty) `sid`, or `sid == 'Guest'`, or for which the Central Site
does not answer HTTP 200 (including transport errors), or answers 200
with a `Guest` or empty user, receives the 401 JSON error response, and
the wrapped handler is never invoked: the response is the same whatever
the handler would do. -/
theorem secure_route_rejects_invalid_session (url : String)
    (cookies : List (String × String)) (central : CentralResult)
    (h : alistGet cookies "sid" = Option.none
       ∨ alistGet cookies "sid" = Option.some ""
       ∨ alistGet cookies "sid" = Option.some "Guest"
       ∨ (∀ m, central ≠ CentralResult.response 200 m)
       ∨ central = CentralResult.response 200 Option.none
       ∨ central = CentralResult.response 200 (Option.some "Guest")
       ∨ central = CentralResult.response 200 (Option.some "")) :
    ∀ f, secure_route_wrapper url cookies central f =
      (RespBody.jsonError (authRequiredBody url), 401) := by
  intro f
  by_cases hsid : (falsyStr (alistGet cookies "sid")
      || alistGet cookies "sid" == Option.some "Guest") = true
  · simp [secure_route_wrapper, validate_session, hsid]
  · rcases h with h | h | h | h | h | h | h
    · rw [h] at hsid
      simp [falsyStr] at hsid
    · rw [h] at hsid
      simp [falsyStr] at hsid
    · rw [h] at hsid
      simp [falsyStr] at hsid
    · cases central with
      | requestError m =>
          simp [secure_route_wrapper, validate_session, hsid]
      | response st msg =>
          have hst : (st == 200) = false := by
            cases hq : st == 200 with
            | false => rfl
            | true =>
                have hst200 : st = 200 := eq_of_beq hq
                subst hst200
                exact absurd rfl (h msg)
          simp [secure_route_wrapper, validate_session, hsid, hst]
    · subst h
      simp [secure_route_wrapper, validate_session, hsid]
    · subst h
      simp [secure_route_wrapper, validate_session, hsid]
    · subst h
      simp [secure_route_wrapper, validate_session, hsid]

theorem secure_route_rejects_invalid_session_witness :
    secure_route_wrapper "http://central-site:8000" [] (CentralResult.requestError "timeout")
        (fun u => HandlerOutcome.success u) =
      (RespBody.jsonError (authRequiredBody "http://central-site:8000"), 401) :=
  secure_route_rejects_invalid_session "http://central-site:8000" []
    (CentralResult.requestError "timeout") (Or.inl rfl) (fun u => HandlerOutcome.success u)

/-- C9 counterexample: the claim says the input `None` always yields
`None`, but a falsy `user_email` is first resolved to the session user
(core.py 34-36); with a real session user whose lookup succeeds the call
returns that user's tenant id.  (The empty string input is falsy too and
resolves the same way.) -/
theorem get_user_tenant_id_none_counterexample :
    get_user_tenant_id (Option.some "alice@example.com") Option.none
        (Except.ok (Option.some "T1")) (Except.ok Option.none) = Option.some "T1"
    ∧ Option.some "T1" ≠ (Option.none : Option String) := by
  exact ⟨by decide, by decide⟩

/-- C9 (amended): `get_user_tenant_id` never returns `'SYSTEM'`; the
inputs `'Guest'` and `'Administrator'` always yield `None`; a falsy
input (`None` or `""`) is resolved to the session user and yields `None`
whenever that resolved user is absent, empty, `'Guest'` or
`'Administrator'`; and when both lookups raise, the call returns `None`
instead of propagating the exception. -/
theorem get_user_tenant_id_amended :
    (∀ su ue sqlr fbr, get_user_tenant_id su ue sqlr fbr ≠ Option.some "SYSTEM")
    ∧ (∀ su sqlr fbr, get_user_tenant_id su (Option.some "Guest") sqlr fbr = Option.none
        ∧ get_user_tenant_id su (Option.some "Administrator") sqlr fbr = Option.none)
    ∧ (∀ su ue sqlr fbr, falsyStr ue = true →
        (su = Option.none ∨ su = Option.some "" ∨ su = Option.some "Guest"
          ∨ su = Option.some "Administrator") →
        get_user_tenant_id su ue sqlr fbr = Option.none)
    ∧ (∀ su ue e e', get_user_tenant_id su ue (Except.error e) (Except.error e')
        = Option.none) := by
  refine ⟨?_, ?_, ?_, ?_⟩
  · intro su ue sqlr fbr
    unfold get_user_tenant_id
    intro hc
    split at hc
    · exact Option.noConfusion hc
    · cases sqlr with
      | ok r =>
        cases r with
        | some tid =>
          dsimp only at hc
          split at hc
          · exact Option.noConfusion hc
          · split at hc
            · exact Option.noConfusion hc
            · rename_i hguard
              rw [Option.some.inj hc] at hguard
              simp at hguard
        | none => exact Option.noConfusion hc
      | error e =>
        cases fbr with
        | ok tid =>
          dsimp only at hc
          split at hc
          · exact Option.noConfusion hc
          · rename_i hguard
            rw [hc] at hguard
            simp at hguard
        | error e2 => exact Option.noConfusion hc
  · intro su sqlr fbr
    constructor
    · simp [get_user_tenant_id, resolveEmail, falsyStr]
    · simp [get_user_tenant_id, resolveEmail, falsyStr]
  · intro su ue sqlr fbr hue hsu
    rcases hsu with h | h | h | h <;>
      subst h <;>
        simp [get_user_tenant_id, resolveEmail, hue]
  · intro su ue e e'
    unfold get_user_tenant_id
    split
    · rfl
    · rfl

theorem get_user_tenant_id_amended_witness :
    get_user_tenant_id (Option.some "alice@example.com") Option.none
        (Except.ok (Option.some "SYSTEM")) (Except.ok Option.none) ≠ Option.some "SYSTEM" :=
  get_user_tenant_id_amended.1 (Option.some "alice@example.com") Option.none
    (Except.ok (Option.some "SYSTEM")) (Except.ok Option.none)

/-- One `DocumentHooks.register(doctype, event, handler)` call. -/
structure Registration where
  rdoctype : String
  revent : String
  rhandler : Handler

/-- The registry after a sequence of `register` calls on a fresh
`DocumentHooks`. -/
def buildHooks (regs : List Registration) : HookState :=
  regs.foldl (fun st r => register st r.rdoctype r.revent r.rhandler) emptyHooks

/-- The handlers registered for a doctype and event, in registration
order (used only to state the hook-order theorem). -/
def handlersOf (regs : List Registration) (doctype event : String) : List Handler :=
  (regs.filter (fun r => r.rdoctype == doctype && r.revent == event)).map Registration.rhandler

theorem hooksFor_register (st : HookState) (d e d' e' : String) (h : Handler) :
    hooksFor (register st d' e' h) d e =
      if d = d' ∧ e = e' then hooksFor st d e ++ [h] else hooksFor st d e := by
  unfold register hooksFor
  by_cases hd : d = d'
  · subst hd
    rw [alistGet_dictSet_self]
    by_cases he : e = e'
    · subst he
      rw [if_pos ⟨rfl, rfl⟩]
      cases hsd : alistGet st d <;> simp [hsd, alistGet_dictSet_self]
    · rw [if_neg (fun hp => he hp.2)]
      simp only [Option.some_bind]
      rw [alistGet_dictSet_ne _ _ _ _ he]
      cases hsd : alistGet st d <;> simp [hsd]
  · rw [if_neg (fun hp => hd hp.1)]
    rw [alistGet_dictSet_ne _ _ _ _ hd]

theorem hooksFor_buildHooks (regs : List Registration) (d e : String) :
    hooksFor (buildHooks regs) d e = handlersOf regs d e := by
  induction regs using List.reverseRecOn with
  | nil => simp [buildHooks, emptyHooks, hooksFor, handlersOf]
  | append_singleton regs r ih =>
    rw [buildHooks, List.foldl_append]
    show hooksFor (register (buildHooks regs) r.rdoctype r.revent r.rhandler) d e = _
    rw [hooksFor_register, handlersOf, List.filter_append, List.map_append]
    rw [← handlersOf]
    by_cases hm : d = r.rdoctype ∧ e = r.revent
    · rw [if_pos hm, ih]
      obtain ⟨h1, h2⟩ := hm
      simp [List.filter, h1.symm, h2.symm, handlersOf]
    · rw [if_neg hm, ih]
      have hb : (r.rdoctype == d && r.revent == e) = false := by
        by_cases hq1 : r.rdoctype = d
        · by_cases hq2 : r.revent = e
          · exact absurd ⟨hq1.symm, hq2.symm⟩ hm
          · simp [beq_iff_eq, hq2]
        · simp [beq_iff_eq, hq1]
      simp [List.filter, hb]

/-- C10: after any sequence of `register` calls, `get_hooks` returns the
handlers registered for `'*'` followed by those registered for the
specific doctype, each group in registration order; `run_hooks` runs
exactly `get_hooks` of the document's doctype; and with
`raise_on_error=True` the handlers are invoked in list order up to and
including the first one that raises — the invocation trace is a prefix
of the handler names, it is the whole list when no handler raises, and
on an error the last invoked handler is the raising one. -/
theorem hooks_order_and_stop :
    (∀ regs dt ev, get_hooks (buildHooks regs) dt ev
        = handlersOf regs "*" ev ++ handlersOf regs dt ev)
    ∧ (∀ st doc ev roe, run_hooks st doc ev roe
        = runHandlers (get_hooks st ((doc.getattr "doctype").getD "") ev) doc roe)
    ∧ (∀ hooks (doc : Doc), ∃ n, n ≤ hooks.length
        ∧ (runHandlers hooks doc true).1 = (hooks.map Handler.hname).take n
        ∧ ((∃ d, (runHandlers hooks doc true).2 = Except.ok d) → n = hooks.length)
        ∧ (∀ e, (runHandlers hooks doc true).2 = Except.error e →
            ∃ m hnd doc', n = m + 1 ∧ List.get? hooks m = Option.some hnd
              ∧ (runHandlers (hooks.take m) doc true).2 = Except.ok doc'
              ∧ hnd.run doc' = Except.error e)) := by
  refine ⟨?_, ?_, ?_⟩
  · intro regs dt ev
    rw [get_hooks, hooksFor_buildHooks, hooksFor_buildHooks]
  · intro st doc ev roe
    rfl
  · intro hooks
    induction hooks with
    | nil =>
      intro doc
      exact ⟨0, Nat.le_refl 0, rfl, fun _ => rfl, fun e he => Except.noConfusion he⟩
    | cons h rest ih =>
      intro doc
      cases hr : h.run doc with
      | ok doc1 =>
        obtain ⟨n, hlen, htr, hok, herr⟩ := ih doc1
        refine ⟨n + 1, Nat.succ_le_succ hlen, ?_, ?_, ?_⟩
        · show (runHandlers (h :: rest) doc true).1 = _
          rw [runHandlers, hr]
          simp only [List.map_cons, List.take_succ_cons]
          rw [htr]
        · rintro ⟨d, hd⟩
          rw [runHandlers, hr] at hd
          have := hok ⟨d, hd⟩
          simp [this]
        · intro e he
          rw [runHandlers, hr] at he
          obtain ⟨m, hnd, doc', hn, hget, hrun, herr2⟩ := herr e he
          refine ⟨m + 1, hnd, doc', by rw [hn], hget, ?_, herr2⟩
          rw [List.take_succ_cons, runHandlers, hr]
          exact hrun
      | error e0 =>
        refine ⟨1, Nat.succ_le_succ (Nat.zero_le _), ?_, ?_, ?_⟩
        · show (runHandlers (h :: rest) doc true).1 = _
          rw [runHandlers, hr]
          rfl
        · rintro ⟨d, hd⟩
          rw [runHandlers, hr] at hd
          exact Except.noConfusion hd
        · intro e he
          rw [runHandlers, hr] at he
          refine ⟨0, h, doc, rfl, rfl, rfl, ?_⟩
          rw [hr]
          exact congrArg Except.error (Except.error.inj he)

theorem hooks_order_and_stop_witness :
    get_hooks (buildHooks []) "Sales Order" "before_insert"
      = handlersOf [] "*" "before_insert"
        ++ handlersOf [] "Sales Order" "before_insert" :=
  hooks_order_and_stop.1 [] "Sales Order" "before_insert"

theorem getattr_setattr (d : Doc) (a b k : String) :
    (d.setattr a b).getattr k = if k = a then Option.some b else d.getattr k := by
  unfold Doc.setattr Doc.getattr
  by_cases h : k = a
  · subst h
    simp [alistGet_dictSet_self]
  · simp [h, alistGet_dictSet_ne _ _ _ _ h]

theorem hasattrB_eq_isSome (d : Doc) (k : String) :
    d.hasattrB k = (d.getattr k).isSome := rfl

theorem applyFields_cons (doc : Doc) (p : String × String) (t : List (String × String)) :
    applyFields doc (p :: t)
      = applyFields (if doc.hasattrB p.1 then doc.setattr p.1 p.2 else doc) t := rfl

theorem hasattrB_applyFields (data : List (String × String)) :
    ∀ (doc : Doc) (k : String), (applyFields doc data).hasattrB k = doc.hasattrB k := by
  induction data with
  | nil => intro doc k; rfl
  | cons p t ih =>
    intro doc k
    rw [applyFields_cons, ih]
    by_cases hp : doc.hasattrB p.1 = true
    · rw [if_pos hp, hasattrB_eq_isSome, hasattrB_eq_isSome, getattr_setattr]
      by_cases hk : k = p.1
      · subst hk
        rw [if_pos rfl]
        rw [hasattrB_eq_isSome] at hp
        simp [hp]
      · rw [if_neg hk]
    · rw [if_neg hp]

theorem getattr_applyFields_not_mem (data : List (String × String)) :
    ∀ (doc : Doc) (k : String), (∀ p ∈ data, p.1 ≠ k) →
      (applyFields doc data).getattr k = doc.getattr k := by
  induction data with
  | nil => intro doc k _; rfl
  | cons p t ih =>
    intro doc k hmem
    rw [applyFields_cons, ih _ k (fun q hq => hmem q (List.mem_cons_of_mem p hq))]
    by_cases hp : doc.hasattrB p.1 = true
    · rw [if_pos hp, getattr_setattr,
        if_neg (fun hk => hmem p (List.mem_cons_self p t) hk.symm)]
    · rw [if_neg hp]

theorem getattr_applyFields_applied (data : List (String × String)) :
    ∀ (doc : Doc) (k v : String), (data.map Prod.fst).Nodup →
      alistGet data k = Option.some v → doc.hasattrB k = true →
      (applyFields doc data).getattr k = Option.some v := by
  induction data with
  | nil =>
    intro doc k v _ hget _
    exact absurd hget (by simp)
  | cons p t ih =>
    intro doc k v hnd hget hattr
    obtain ⟨a, b⟩ := p
    rw [applyFields_cons]
    rw [List.map_cons] at hnd
    have hnd' := List.nodup_cons.mp hnd
    by_cases hak : a = k
    · subst hak
      have hv : b = v := by simpa using hget
      have hnot : ∀ q ∈ t, q.1 ≠ a := by
        intro q hq hqa
        have hmem : q.1 ∈ List.map Prod.fst t := List.mem_map_of_mem Prod.fst hq
        rw [hqa] at hmem
        exact hnd'.1 hmem
      rw [if_pos hattr, getattr_applyFields_not_mem t _ a hnot, getattr_setattr,
        if_pos rfl, hv]
    · have hget' : alistGet t k = Option.some v := by
        simpa [hak] using hget
      have hattr' : (if doc.hasattrB a = true then doc.setattr a b else doc).hasattrB k
          = true := by
        by_cases hp : doc.hasattrB a = true
        · rw [if_pos hp, hasattrB_eq_isSome, getattr_setattr,
            if_neg (fun hk => hak hk.symm)]
          exact hattr
        · rw [if_neg hp]
          exact hattr
      exact ih _ k v hnd'.2 hget' hattr'

theorem alistGet_filter_key_ne {α : Type} (data : List (String × α)) (k k0 : String)
    (hk : k ≠ k0) :
    alistGet (data.filter (fun p => !(p.1 == k0))) k = alistGet data k := by
  induction data with
  | nil => rfl
  | cons p t ih =>
    obtain ⟨a, b⟩ := p
    by_cases ha : a = k0
    · have h1 : List.filter (fun p : String × α => !(p.1 == k0)) ((a, b) :: t)
          = List.filter (fun p : String × α => !(p.1 == k0)) t := by
        simp [List.filter_cons, ha]
      have hka : ¬(a == k) = true := by
        simp only [beq_iff_eq]
        exact fun hq => hk (hq.symm.trans ha)
      rw [h1, ih, alistGet_cons, if_neg hka]
    · have h1 : List.filter (fun p : String × α => !(p.1 == k0)) ((a, b) :: t)
          = (a, b) :: List.filter (fun p : String × α => !(p.1 == k0)) t := by
        simp [List.filter_cons, ha]
      rw [h1, alistGet_cons, alistGet_cons, ih]

theorem get_doc_ok_find (gt : Option String) (db : Database) (dt nm : String)
    (vt : Bool) (d : Doc) (h : get_doc gt db dt nm vt = Except.ok d) :
    findDoc db dt nm = Option.some d := by
  unfold get_doc frappe_get_doc at h
  cases hf : findDoc db dt nm with
  | none =>
    rw [hf] at h
    exact Except.noConfusion h
  | some d0 =>
    rw [hf] at h
    dsimp only at h
    by_cases hc : (vt && d0.hasattrB "tenant_id") = true
    · rw [if_pos hc] at h
      by_cases hne : d0.getattr "tenant_id" ≠ gt
      · rw [if_pos hne] at h
        exact Except.noConfusion h
      · rw [if_neg hne] at h
        rw [← Except.ok.inj h]
    · rw [if_neg hc] at h
      rw [← Except.ok.inj h]

theorem runHooksE_empty (doc : Doc) (ev : String) :
    runHooksE emptyHooks doc ev = Except.ok doc := rfl

/-- C6 counterexample: updating a stored document with data that
contains a key the document does not have (`newfield`) succeeds but the
field is silently dropped (`if hasattr(doc, key)`, core.py 644), so the
claim that all non-`tenant_id` supplied fields are applied is false. -/
theorem update_doc_unknown_field_counterexample :
    (update_doc (Option.some "T1") emptyHooks sampleDb "Task" "T-1"
        [("status", "Closed"), ("newfield", "x")] true).2
      = Except.ok (Doc.mk
          [("doctype", "Task"), ("name", "T-1"), ("tenant_id", "T1"), ("status", "Closed")])
    ∧ (Doc.mk [("doctype", "Task"), ("name", "T-1"), ("tenant_id", "T1"),
        ("status", "Closed")]).getattr "newfield" = Option.none :=
  ⟨by decide, by decide⟩

/-- C6 (amended): `update_doc` never changes the document's `tenant_id`:
any `tenant_id` key is removed from (a copy of) the data before fields
are applied, so the updated document's `tenant_id` equals the stored
value before the update; and every other supplied field **that the
document already has as an attribute** is applied (a field the document
lacks is skipped).  Stated for runs without custom hooks and for data
with distinct keys, as a Python dict has. -/
theorem update_doc_preserves_tenant (gt : Option String) (db : Database)
    (dt nm : String) (data : List (String × String)) (doc0 : Doc)
    (hfind : findDoc db dt nm = Option.some doc0)
    (hnodup : (data.map Prod.fst).Nodup) :
    ∀ db' doc', update_doc gt emptyHooks db dt nm data true = (db', Except.ok doc') →
      doc'.getattr "tenant_id" = doc0.getattr "tenant_id"
      ∧ (∀ k v, alistGet data k = Option.some v → k ≠ "tenant_id" →
          doc0.hasattrB k = true → doc'.getattr k = Option.some v) := by
  intro db' doc' heq
  unfold update_doc at heq
  cases hgd : get_doc gt db dt nm true with
  | error e =>
    rw [hgd] at heq
    dsimp only at heq
    exact absurd (congrArg Prod.snd heq) (by simp)
  | ok docg =>
    have hdg : docg = doc0 := by
      have hfd := get_doc_ok_find gt db dt nm true docg hgd
      rw [hfind] at hfd
      exact (Option.some.inj hfd).symm
    rw [hgd] at heq
    rw [hdg] at heq
    dsimp only at heq
    rw [if_pos rfl, runHooksE_empty] at heq
    dsimp only at heq
    rw [if_pos rfl, runHooksE_empty] at heq
    dsimp only at heq
    have hdoc : Except.ok (applyFields doc0 (data.filter (fun p => !(p.1 == "tenant_id"))))
        = Except.ok doc' := congrArg Prod.snd heq
    have hdoc' : doc' = applyFields doc0 (data.filter (fun p => !(p.1 == "tenant_id"))) :=
      (Except.ok.inj hdoc).symm
    subst hdoc'
    have hmem : ∀ p ∈ data.filter (fun p : String × String => !(p.1 == "tenant_id")),
        p.1 ≠ "tenant_id" := by
      intro p hp
      have hq := (List.mem_filter.mp hp).2
      simpa using hq
    have hnodup' : ((data.filter
        (fun p : String × String => !(p.1 == "tenant_id"))).map Prod.fst).Nodup :=
      hnodup.sublist (List.Sublist.map Prod.fst (List.filter_sublist data))
    constructor
    · exact getattr_applyFields_not_mem _ doc0 "tenant_id" hmem
    · intro k v hget hk hattr
      have hget' : alistGet (data.filter
          (fun p : String × String => !(p.1 == "tenant_id"))) k = Option.some v := by
        rw [alistGet_filter_key_ne _ _ _ hk]
        exact hget
      exact getattr_applyFields_applied _ doc0 k v hnodup' hget' hattr

theorem update_doc_preserves_tenant_witness :
    (Doc.mk [("doctype", "Task"), ("name", "T-1"), ("tenant_id", "T1"),
      ("status", "Closed")]).getattr "tenant_id" = sampleDoc.getattr "tenant_id"
    ∧ (∀ k v, alistGet [("status", "Closed")] k = Option.some v → k ≠ "tenant_id" →
        sampleDoc.hasattrB k = true →
        (Doc.mk [("doctype", "Task"), ("name", "T-1"), ("tenant_id", "T1"),
          ("status", "Closed")]).getattr k = Option.some v) :=
  update_doc_preserves_tenant (Option.some "T1") sampleDb "Task" "T-1"
    [("status", "Closed")] sampleDoc (by decide) (by decide)
    (Database.mk [Doc.mk [("doctype", "Task"), ("name", "T-1"), ("tenant_id", "T1"),
      ("status", "Closed")]] 5)
    (Doc.mk [("doctype", "Task"), ("name", "T-1"), ("tenant_id", "T1"), ("status", "Closed")])
    (by decide)

theorem alistGet_dictUpdate_none {α : Type} (upd : List (String × α)) :
    ∀ (base : List (String × α)) (k : String), alistGet upd k = Option.none →
      alistGet (dictUpdate base upd) k = alistGet base k := by
  induction upd with
  | nil => intro base k _; rfl
  | cons p t ih =>
    intro base k h
    obtain ⟨a, b⟩ := p
    have hna : ¬(a == k) = true := by
      intro hq
      rw [alistGet_cons, if_pos hq] at h
      exact Option.noConfusion h
    have ht' : alistGet t k = Option.none := by
      rw [alistGet_cons, if_neg hna] at h
      exact h
    show alistGet (dictUpdate (dictSet base a b) t) k = _
    rw [ih _ k ht']
    exact alistGet_dictSet_ne base a k b (fun hq => hna (by rw [hq]; exact beq_self_eq_true a))

theorem find?_updateFirst {α : Type} (p : α → Bool) (g : α → α)
    (hpres : ∀ a, p a = true → p (g a) = true) :
    ∀ l : List α, List.find? p (updateFirst p g l) = (List.find? p l).map g := by
  intro l
  induction l with
  | nil => rfl
  | cons a t ih =>
    by_cases hp : p a = true
    · show List.find? p (if p a then g a :: t else a :: updateFirst p g t) = _
      rw [if_pos hp, List.find?_cons_of_pos _ (hpres a hp), List.find?_cons_of_pos _ hp]
      rfl
    · show List.find? p (if p a then g a :: t else a :: updateFirst p g t) = _
      rw [if_neg hp, List.find?_cons_of_neg _ hp, List.find?_cons_of_neg _ hp, ih]

theorem docMatches_setattr_other (dt nm : String) (d : Doc) (f v : String)
    (hf1 : f ≠ "doctype") (hf2 : f ≠ "name") :
    docMatches dt nm (d.setattr f v) = docMatches dt nm d := by
  unfold docMatches
  rw [getattr_setattr, if_neg (fun hq => hf1 hq.symm),
    getattr_setattr, if_neg (fun hq => hf2 hq.symm)]

theorem docMatches_getattr (dt nm : String) (d : Doc) (h : docMatches dt nm d = true) :
    d.getattr "doctype" = Option.some dt ∧ d.getattr "name" = Option.some nm := by
  unfold docMatches at h
  have h2 := Bool.and_elim_right h
  have h1 := Bool.and_elim_left h
  exact ⟨eq_of_beq h1, eq_of_beq h2⟩

theorem get_value_after_set_value (t : String) (db1 : Database) (doctype nm : String)
    (d0 : Doc) (hfind : findDoc db1 doctype nm = Option.some d0) :
    findDoc (frappe_db_set_value db1 doctype nm "tenant_id" t) doctype nm
      = Option.some (d0.setattr "tenant_id" t) := by
  unfold findDoc frappe_db_set_value
  unfold findDoc at hfind
  rw [find?_updateFirst (docMatches doctype nm) (fun d => d.setattr "tenant_id" t)
    (fun a ha => by rw [docMatches_setattr_other _ _ _ _ _ (by decide) (by decide)]; exact ha)]
  rw [hfind]
  rfl

theorem find?_append_isSome {α : Type} (p : α → Bool) (l2 : List α)
    (h : (List.find? p l2).isSome = true) :
    ∀ l1 : List α, (List.find? p (l1 ++ l2)).isSome = true := by
  intro l1
  induction l1 with
  | nil => rw [List.nil_append]; exact h
  | cons a t ih =>
    by_cases hp : p a = true
    · rw [List.cons_append, List.find?_cons_of_pos _ hp]
      rfl
    · rw [List.cons_append, List.find?_cons_of_neg _ hp]
      exact ih

/-- What the post-insert safety check guarantees: whatever the insert
persisted, afterwards the returned document and the row addressed by
`(doctype, name)` both carry the expected `tenant_id`. -/
theorem tenantSafetyCheck_spec (t : String) (db1 : Database) (doctype nm : String) (doc4 : Doc)
    (hname : doc4.getattr "name" = Option.some nm)
    (hten : doc4.getattr "tenant_id" = Option.some t)
    (hfind : (findDoc db1 doctype nm).isSome = true) :
    (tenantSafetyCheck t db1 doctype doc4).2.getattr "tenant_id" = Option.some t
    ∧ (tenantSafetyCheck t db1 doctype doc4).2.getattr "name" = Option.some nm
    ∧ frappe_db_get_value (tenantSafetyCheck t db1 doctype doc4).1 doctype nm "tenant_id"
        = Option.some t := by
  obtain ⟨d0, hd0⟩ := Option.isSome_iff_exists.mp hfind
  unfold tenantSafetyCheck
  rw [hname]
  dsimp only [Option.getD]
  by_cases hsv : frappe_db_get_value db1 doctype nm "tenant_id" ≠ Option.some t
  · rw [if_pos hsv]
    have hset := get_value_after_set_value t db1 doctype nm d0 hd0
    dsimp only
    rw [hset]
    dsimp only [Option.getD]
    have hd0attrs := docMatches_getattr doctype nm d0 (List.find?_some hd0)
    refine ⟨?_, ?_, ?_⟩
    · rw [getattr_setattr, if_pos rfl]
    · rw [getattr_setattr, if_neg (by decide)]
      exact hd0attrs.2
    · unfold frappe_db_get_value
      rw [hset]
      dsimp only [Option.bind]
      rw [getattr_setattr, if_pos rfl]
  · rw [if_neg hsv]
    push_neg at hsv
    exact ⟨hten, hname, hsv⟩

/-- C4 counterexample: `new_doc` builds the document dict as
`{"doctype": doctype, "tenant_id": tenant_id, **kwargs}` (core.py
425-429) with no tenant check, so a caller-supplied `tenant_id` kwarg
overrides the injected one and the document created through `new_doc`
carries a different tenant id. -/
theorem new_doc_tenant_override_counterexample :
    new_doc (Option.some "T1") emptyHooks "Task" [("tenant_id", "EVIL")]
      = Except.ok (Doc.mk [("doctype", "Task"), ("tenant_id", "EVIL")])
    ∧ (Doc.mk [("doctype", "Task"), ("tenant_id", "EVIL")]).getattr "tenant_id"
        ≠ Option.some "T1" :=
  ⟨by decide, by decide⟩

/-- C4 (amended): `insert_doc` refuses a supplied `tenant_id` different
from the current tenant with `frappe.PermissionError`, leaving the store
untouched; on success (no custom hooks, no `doctype` override among the
fields) both the returned document and the stored row it names carry the
current tenant id; and `new_doc` injects the current tenant id whenever
the caller does not supply a `tenant_id` kwarg — a supplied kwarg
overrides it unchecked (see the counterexample). -/
theorem insert_new_doc_tenant (t : String) (ht : t ≠ "") (db : Database)
    (doctype : String) (data kwargs : List (String × String)) :
    (∀ st rf v, alistGet (docFieldsOf data kwargs) "tenant_id" = Option.some v → v ≠ t →
        insert_doc (Option.some t) st db doctype data kwargs rf =
          (db, Except.error (Err.permissionError "Cannot create document for different tenant")))
    ∧ (alistGet (docFieldsOf data kwargs) "doctype" = Option.none →
        ∀ db' doc', insert_doc (Option.some t) emptyHooks db doctype data kwargs true
            = (db', Except.ok doc') →
          doc'.getattr "tenant_id" = Option.some t
          ∧ ∃ nm, doc'.getattr "name" = Option.some nm
              ∧ frappe_db_get_value db' doctype nm "tenant_id" = Option.some t)
    ∧ (alistGet kwargs "tenant_id" = Option.none →
        ∃ d, new_doc (Option.some t) emptyHooks doctype kwargs = Except.ok d
          ∧ d.getattr "tenant_id" = Option.some t) := by
  have hfal : ¬(falsyStr (Option.some t) = true) := by simp [falsyStr, ht]
  refine ⟨?_, ?_, ?_⟩
  · intro st rf v hsup hne
    unfold insert_doc
    rw [if_neg hfal]
    dsimp only [Option.getD]
    rw [hsup]
    have hg : ((Option.some v).isSome && (Option.some v != Option.some t)) = true := by
      simp [hne]
    rw [if_pos hg]
  · intro hnodt db' doc' heq
    unfold insert_doc at heq
    rw [if_neg hfal] at heq
    dsimp only [Option.getD] at heq
    by_cases hguard : ((alistGet (docFieldsOf data kwargs) "tenant_id").isSome
        && (alistGet (docFieldsOf data kwargs) "tenant_id" != Option.some t)) = true
    · rw [if_pos hguard] at heq
      exact absurd (congrArg Prod.snd heq) (by simp)
    · rw [if_neg hguard] at heq
      rw [if_pos rfl, runHooksE_empty] at heq
      dsimp only at heq
      rw [if_pos rfl, runHooksE_empty] at heq
      dsimp only at heq
      generalize hD1 : (frappe_make_doc (dictUpdate [("doctype", doctype), ("tenant_id", t)]
          (docFieldsOf data kwargs))).setattr "tenant_id" t = doc1 at heq
      have hd1t : doc1.getattr "tenant_id" = Option.some t := by
        rw [← hD1, getattr_setattr, if_pos rfl]
      have hd1d : doc1.getattr "doctype" = Option.some doctype := by
        rw [← hD1, getattr_setattr, if_neg (by decide)]
        show alistGet (dictUpdate [("doctype", doctype), ("tenant_id", t)]
          (docFieldsOf data kwargs)) "doctype" = Option.some doctype
        rw [alistGet_dictUpdate_none _ _ _ hnodt]
        simp
      have hins : frappe_insert db doc1 =
          (Database.mk
            (db.docs ++ [doc1.setattr "name" ("DOC-".append (toString db.nextId))])
            (db.nextId + 1),
           doc1.setattr "name" ("DOC-".append (toString db.nextId))) := rfl
      rw [hins] at heq
      dsimp only at heq
      generalize hN : "DOC-".append (toString db.nextId) = nm at heq
      generalize hD4 : doc1.setattr "name" nm = doc4 at heq
      have hd4n : doc4.getattr "name" = Option.some nm := by
        rw [← hD4, getattr_setattr, if_pos rfl]
      have hd4t : doc4.getattr "tenant_id" = Option.some t := by
        rw [← hD4, getattr_setattr, if_neg (by decide)]
        exact hd1t
      have hd4d : doc4.getattr "doctype" = Option.some doctype := by
        rw [← hD4, getattr_setattr, if_neg (by decide)]
        exact hd1d
      have hd4m : docMatches doctype nm doc4 = true := by
        unfold docMatches
        rw [hd4d, hd4n]
        simp
      have hfind1 :
          (findDoc (Database.mk (db.docs ++ [doc4]) (db.nextId + 1)) doctype nm).isSome
            = true := by
        unfold findDoc
        exact find?_append_isSome _ [doc4]
          (by rw [List.find?_cons_of_pos _ hd4m]; rfl) db.docs
      have spec := tenantSafetyCheck_spec t
        (Database.mk (db.docs ++ [doc4]) (db.nextId + 1)) doctype nm doc4 hd4n hd4t hfind1
      have hdbeq :
          (tenantSafetyCheck t (Database.mk (db.docs ++ [doc4]) (db.nextId + 1))
            doctype doc4).1 = db' := congrArg Prod.fst heq
      have hdceq : doc'
          = (tenantSafetyCheck t (Database.mk (db.docs ++ [doc4]) (db.nextId + 1))
              doctype doc4).2 :=
        (Except.ok.inj (congrArg Prod.snd heq)).symm
      refine ⟨?_, nm, ?_, ?_⟩
      · rw [hdceq]
        exact spec.1
      · rw [hdceq]
        exact spec.2.1
      · rw [← hdbeq]
        exact spec.2.2
  · intro hkten
    unfold new_doc
    rw [if_neg hfal]
    dsimp only [Option.getD]
    refine ⟨_, rfl, ?_⟩
    show alistGet (dictUpdate [("doctype", doctype), ("tenant_id", t)] kwargs) "tenant_id"
      = Option.some t
    rw [alistGet_dictUpdate_none _ _ _ hkten]
    simp

theorem insert_new_doc_tenant_witness :
    ∃ d, new_doc (Option.some "T1") emptyHooks "Task" [("status", "New")] = Except.ok d
      ∧ d.getattr "tenant_id" = Option.some "T1" :=
  (insert_new_doc_tenant "T1" (by decide) sampleDb "Task" [] [("status", "New")]).2.2
    (by decide)

end FrappeMS
